import Mathlib

/-!
Shallow embedding of the Viera Protocol AI validation service
(`app/main.py`, `app/services/security_scanner.py`,
`app/services/code_validator.py`, `app/services/confidence_scorer.py`).

Numeric scores are modelled as exact rationals; Python `round` is modelled
as round-half-to-even (`pyRound`).  External tools (ClamAV, flake8, eslint,
bandit, node, the filesystem) are modelled as abstract stage outcomes: each
stage function takes the abstract result the external call would produce
(including a `failure` constructor standing for a raised exception caught
by the corresponding `except` block).
-/

namespace Viera

/-- Issue severities used throughout the service (Python string values
"error" / "warning" / "info"). -/
inductive Severity
  | error
  | warning
  | info
deriving DecidableEq, Repr

/-- An issue dict as built by the service: severity, message, file name,
optional line number, and the rule identifier. -/
structure Issue where
  severity : Severity
  message : String
  file : String
  line : Option Int := none
  rule : String
deriving DecidableEq, Repr

/-- A Python dict of category scores, as an association list
(insertion-ordered, keys unique in every use by the service). -/
abbrev Scores := List (String × ℚ)

/-- Python `round(q)`: round half to even (banker's rounding). -/
def pyRound (q : ℚ) : ℤ :=
  let f := ⌊q⌋
  let frac := q - (f : ℚ)
  if frac < 1/2 then f
  else if 1/2 < frac then f + 1
  else if f % 2 = 0 then f else f + 1

/-- Python `round(q, 2)`. -/
def pyRound2 (q : ℚ) : ℚ := (pyRound (q * 100) : ℚ) / 100

/-! ## ConfidenceScorer (`confidence_scorer.py`) -/

/-- `ConfidenceScorer.__init__`: the fixed category weights. -/
def weights : List (String × ℚ) :=
  [("security", 35/100), ("technical_quality", 30/100),
   ("originality", 20/100), ("completeness", 15/100)]

/-- The accumulation loop of `calculate_overall_confidence`:
`(weighted_score, total_weight)` after iterating over `scores.items()`. -/
def weightedTotals (scores : Scores) : ℚ × ℚ :=
  scores.foldl
    (fun acc p =>
      match weights.lookup p.1 with
      | some w => (acc.1 + p.2 * w, acc.2 + w)
      | none => acc)
    (0, 0)

/-- `ConfidenceScorer._apply_confidence_adjustments`. -/
def apply_confidence_adjustments (scores : Scores) (base_score : ℚ) : ℚ :=
  let security_score := (scores.lookup "security").getD 100
  let adjusted1 :=
    if security_score < 50 then base_score * (3/10)
    else if security_score < 70 then base_score * (7/10)
    else base_score
  let technical_score := (scores.lookup "technical_quality").getD 100
  let adjusted2 := if technical_score < 30 then adjusted1 * (1/2) else adjusted1
  if ∀ p ∈ scores, (85 : ℚ) ≤ p.2 then min 100 (adjusted2 * (105/100))
  else adjusted2

/-- `ConfidenceScorer.calculate_overall_confidence`. -/
def calculate_overall_confidence (scores : Scores) : ℤ :=
  let wt := weightedTotals scores
  let final_score : ℚ := if 0 < wt.2 then wt.1 / wt.2 else 50
  let adjusted_score := apply_confidence_adjustments scores final_score
  max 0 (min 100 (pyRound adjusted_score))

/-! ## SecurityScanner (`security_scanner.py`) -/

/-- `str.lower()` (ASCII, which covers every extension the service compares
against). -/
def lowerStr (s : String) : String := ⟨s.data.map Char.toLower⟩

/-- Index of the last `'.'` in a character list, if any. -/
def lastDotIdx (cs : List Char) : Option Nat :=
  (List.range cs.length).foldl
    (fun acc i => if cs.getD i ' ' = '.' then some i else acc) none

/-- `os.path.splitext(name)[1]` for a bare file name (no path separator):
the suffix starting at the last dot, unless every character before that dot
is itself a dot. -/
def splitext_ext (name : String) : String :=
  match lastDotIdx name.data with
  | none => ""
  | some i =>
    if (name.data.take i).any (fun c => c != '.') then ⟨name.data.drop i⟩
    else ""

/-- `os.path.splitext(file_info["name"])[1].lower()`, the idiom used by
every extension check in the service. -/
def file_ext (name : String) : String := lowerStr (splitext_ext name)

/-- The outcome of a fallible step: `ok` carries the value the external
call produced, `failure` stands for a raised exception (its message),
caught by the enclosing `except` block. -/
inductive StageOutcome (α : Type)
  | ok (val : α)
  | failure (msg : String)
deriving DecidableEq, Repr

/-- Abstract result of `_scan_with_clamav` (that helper catches its own
exceptions and reports `infected=False` when the daemon is unavailable,
so its outcome is always a plain result). -/
structure ClamResult where
  infected : Bool
  virus : String
deriving DecidableEq, Repr

/-- Result of `_validate_file_type`. -/
structure FileTypeResult where
  suspicious : Bool
  issues : List Issue
deriving DecidableEq, Repr

/-- Result shape `{issues, score_deduction}` shared by several stages. -/
structure StageResult where
  issues : List Issue
  score_deduction : ℕ
deriving DecidableEq, Repr

/-- The extension denylist of `_validate_file_type`. -/
def dangerous_extensions : List String :=
  [".exe", ".bat", ".cmd", ".scr", ".pif", ".com", ".dll",
   ".msi", ".vbs", ".ps1", ".jar", ".app", ".deb", ".rpm"]

/-- `SecurityScanner._validate_file_type`.  `sig` is the outcome of reading
the first 16 bytes of the file (byte values, `'M' = 77`, `'Z' = 90`). -/
def validate_file_type (fname : String) (sig : StageOutcome (List ℕ)) :
    FileTypeResult :=
  match sig with
  | .failure msg =>
    { suspicious := true
      issues := [{ severity := .warning
                   message := "File type validation failed: " ++ msg
                   file := fname, rule := "file_type_error" }] }
  | .ok bytes =>
    let file_extension := file_ext fname
    let extBad := file_extension ∈ dangerous_extensions
    let issues1 : List Issue :=
      if extBad then
        [{ severity := .error
           message := "Dangerous file type not allowed: " ++ file_extension
           file := fname, rule := "file_type_validation" }]
      else []
    let sigBad := 2 ≤ bytes.length ∧ bytes.take 2 = [77, 90]
    let issues2 : List Issue :=
      if sigBad then
        [{ severity := .error
           message := "Executable file detected by signature"
           file := fname, rule := "file_signature_check" }]
      else []
    { suspicious := extBad ∨ sigBad, issues := issues1 ++ issues2 }

/-- Extensions the content-pattern stage scans. -/
def text_extensions : List String :=
  [".py", ".js", ".ts", ".java", ".cpp", ".c", ".h", ".txt", ".md"]

/-- The ordered risk-pattern table of `_scan_file_content`
(message, severity); the regex itself is external to this model. -/
def suspicious_patterns : List (String × Severity) :=
  [("Use of eval() function detected", .warning),
   ("Use of exec() function detected", .warning),
   ("Dynamic import detected", .info),
   ("System command execution detected", .warning),
   ("Network operation detected", .info),
   ("Base64 decoding detected", .info),
   ("Unsafe deserialization detected", .error)]

/-- Per-severity deduction of the content-pattern stage. -/
def contentDeduction : Severity → ℕ
  | .error => 30
  | .warning => 10
  | .info => 2

/-- `SecurityScanner._scan_file_content`.  `matchCounts` is the abstract
outcome of `re.findall` for each pattern of `suspicious_patterns`, in table
order (`0` = no match). -/
def scan_file_content (fname : String) (matchCounts : StageOutcome (List ℕ)) :
    StageResult :=
  match matchCounts with
  | .failure msg =>
    { issues := [{ severity := .warning
                   message := "Content scan failed: " ++ msg
                   file := fname, rule := "content_scan_error" }]
      score_deduction := 5 }
  | .ok counts =>
    if file_ext fname ∉ text_extensions then { issues := [], score_deduction := 0 }
    else
      let folded := (suspicious_patterns.zip counts).foldl
        (fun (acc : StageResult) pc =>
          if pc.2 ≠ 0 then
            { issues := acc.issues ++
                [{ severity := pc.1.2
                   message := pc.1.1 ++ " (" ++ toString pc.2 ++ " occurrences)"
                   file := fname, rule := "content_pattern_scan" }]
              score_deduction := acc.score_deduction + contentDeduction pc.1.2 }
          else acc)
        { issues := [], score_deduction := 0 }
      { issues := folded.issues, score_deduction := min folded.score_deduction 50 }

/-- Extensions the small-file heuristic of `_validate_file_structure`
applies to. -/
def code_extensions : List String := [".py", ".js", ".java", ".cpp"]

/-- `SecurityScanner._validate_file_structure`.  `fsize` is the outcome of
`os.stat(file_path).st_size`. -/
def validate_file_structure (fname : String) (fsize : StageOutcome ℕ) :
    StageResult :=
  match fsize with
  | .failure msg =>
    { issues := [{ severity := .info
                   message := "File structure validation failed: " ++ msg
                   file := fname, rule := "structure_validation_error" }]
      score_deduction := 1 }
  | .ok file_size =>
    let r1 : StageResult :=
      if 100 * 1024 * 1024 < file_size then
        { issues := [{ severity := .warning
                       message := "Large file size"
                       file := fname, rule := "file_size_check" }]
          score_deduction := 5 }
      else { issues := [], score_deduction := 0 }
    if file_ext fname ∈ code_extensions ∧ file_size < 10 then
      { issues := r1.issues ++
          [{ severity := .info
             message := "Very small code file detected"
             file := fname, rule := "file_size_check" }]
        score_deduction := r1.score_deduction + 2 }
    else r1

/-- The abstract per-file inputs of `SecurityScanner.scan_file`: the file
name plus the outcome each sub-step would observe. -/
structure SecurityInput where
  name : String
  clam : ClamResult
  sig : StageOutcome (List ℕ)
  contentMatches : StageOutcome (List ℕ)
  fsize : StageOutcome ℕ
deriving DecidableEq, Repr

/-- A run of `scan_file`: either all stages complete (`ok`), or an
exception reaches the top-level `except` with the issues accumulated so
far (`crash`). -/
inductive ScanRun
  | ok (inp : SecurityInput)
  | crash (accumulated : List Issue) (msg : String) (fname : String)
deriving DecidableEq, Repr

/-- Result of `SecurityScanner.scan_file`. -/
structure ScanResult where
  score : ℤ
  issues : List Issue
  scan_completed : Bool
deriving DecidableEq, Repr

/-- `SecurityScanner.scan_file`. -/
def scan_file : ScanRun → ScanResult
  | .crash accumulated msg fname =>
    { score := 0
      issues := accumulated ++
        [{ severity := .error
           message := "Security scan failed: " ++ msg
           file := fname, rule := "scan_error" }]
      scan_completed := false }
  | .ok inp =>
    let issues0 : List Issue :=
      if inp.clam.infected then
        [{ severity := .error
           message := "Malware detected: " ++ inp.clam.virus
           file := inp.name, rule := "clamav_scan" }]
      else []
    let score0 : ℤ := if inp.clam.infected then 0 else 100
    let file_type_result := validate_file_type inp.name inp.sig
    let issues1 :=
      if file_type_result.suspicious then issues0 ++ file_type_result.issues
      else issues0
    let score1 := if file_type_result.suspicious then score0 - 20 else score0
    let content_result := scan_file_content inp.name inp.contentMatches
    let issues2 := issues1 ++ content_result.issues
    let score2 := score1 - (content_result.score_deduction : ℤ)
    let structure_result := validate_file_structure inp.name inp.fsize
    let issues3 := issues2 ++ structure_result.issues
    let score3 := score2 - (structure_result.score_deduction : ℤ)
    { score := max 0 score3, issues := issues3, scan_completed := true }

/-! ## CodeValidator (`code_validator.py`) -/

/-- `CodeValidator.__init__`: language → recognized extensions. -/
def supported_languages : List (String × List String) :=
  [("python", [".py"]), ("javascript", [".js", ".jsx"])]

/-- `CodeValidator._detect_language`: first language whose extension list
contains the given extension. -/
def detect_language (file_extension : String) : Option String :=
  (supported_languages.find? (fun p => file_extension ∈ p.2)).map (·.1)

/-- Result of a syntax oracle (`_check_python_syntax` /
`_check_javascript_syntax`); both catch their own exceptions and return
`valid=False`, so their outcome is always a plain result. -/
structure SyntaxResult where
  valid : Bool
  error : String
  line : Option Int := none
deriving DecidableEq, Repr

/-- `CodeValidator._validate_syntax`: one `error` issue and a flat 50-point
deduction on invalid syntax; the enclosing `except` turns any unexpected
failure into a `warning` issue and a flat 10-point deduction. -/
def validate_syntax_stage (outcome : StageOutcome SyntaxResult)
    (fname : String) : StageResult :=
  match outcome with
  | .failure msg =>
    { issues := [{ severity := .warning
                   message := "Syntax validation failed: " ++ msg
                   file := fname, rule := "syntax_validation_error" }]
      score_deduction := 10 }
  | .ok r =>
    if !r.valid then
      { issues := [{ severity := .error
                     message := "Syntax error: " ++ r.error
                     file := fname, line := r.line, rule := "syntax_validation" }]
        score_deduction := 50 }
    else { issues := [], score_deduction := 0 }

/-- One lint finding after the tool-specific severity mapping
(flake8: `E9`/`F` codes → error, rest warning; eslint: 2 → error,
1 → warning, other → info). -/
structure LintFinding where
  severity : Severity
  message : String
  line : Option Int := none
  rule : String
deriving DecidableEq, Repr

/-- A run of `_analyze_code_quality`: tool findings, a tool timeout, or an
unexpected exception. -/
inductive QualityOutcome
  | ok (findings : List LintFinding)
  | timeout
  | failure (msg : String)
deriving DecidableEq, Repr

/-- `CodeValidator._analyze_code_quality`: +5 per `error` finding, +2 per
other finding, total capped at 30; timeout → `warning` +5; any other
failure → `info` +0. -/
def analyze_code_quality (outcome : QualityOutcome) (fname : String) :
    StageResult :=
  match outcome with
  | .failure msg =>
    { issues := [{ severity := .info
                   message := "Code quality analysis failed: " ++ msg
                   file := fname, rule := "quality_analysis_error" }]
      score_deduction := 0 }
  | .timeout =>
    { issues := [{ severity := .warning
                   message := "Code quality analysis timed out"
                   file := fname, rule := "quality_timeout" }]
      score_deduction := 5 }
  | .ok findings =>
    let folded := findings.foldl
      (fun (acc : StageResult) f =>
        { issues := acc.issues ++
            [{ severity := f.severity, message := f.message
               file := fname, line := f.line, rule := f.rule }]
          score_deduction := acc.score_deduction +
            (if f.severity = .error then 5 else 2) })
      { issues := [], score_deduction := 0 }
    { issues := folded.issues, score_deduction := min folded.score_deduction 30 }

/-- One bandit finding (`issue_severity` already mapped from
LOW/MEDIUM/HIGH, anything else → info). -/
structure BanditFinding where
  severity : Severity
  message : String
  line : Option Int := none
  rule : String
deriving DecidableEq, Repr

/-- The JavaScript security-pattern table of `_analyze_code_security`
(message, severity). -/
def js_security_patterns : List (String × Severity) :=
  [("Use of eval() detected", .error),
   ("Potential XSS with innerHTML", .warning),
   ("Use of document.write detected", .warning),
   ("setTimeout with string argument", .warning),
   ("setInterval with string argument", .warning)]

/-- A run of `_analyze_code_security`: the branch matching the detected
language (bandit findings for python, per-pattern `re.findall` counts for
javascript), a tool timeout, or an unexpected exception. -/
inductive SecurityLintOutcome
  | python (findings : List BanditFinding)
  | javascript (matchCounts : List ℕ)
  | timeout
  | failure (msg : String)
deriving DecidableEq, Repr

/-- Per-severity deduction of the security-lint stage (bandit branch). -/
def securityLintDeduction : Severity → ℕ
  | .error => 15
  | .warning => 8
  | .info => 3

/-- `CodeValidator._analyze_code_security`: bandit findings deduct
15/8/3 by severity; javascript patterns deduct 15 for `error` and 8 for
`warning`; total capped at 40; timeout → `warning` +5; any other failure →
`info` +0. -/
def analyze_code_security (outcome : SecurityLintOutcome) (fname : String) :
    StageResult :=
  match outcome with
  | .failure msg =>
    { issues := [{ severity := .info
                   message := "Security analysis failed: " ++ msg
                   file := fname, rule := "security_analysis_error" }]
      score_deduction := 0 }
  | .timeout =>
    { issues := [{ severity := .warning
                   message := "Security analysis timed out"
                   file := fname, rule := "security_timeout" }]
      score_deduction := 5 }
  | .python findings =>
    let folded := findings.foldl
      (fun (acc : StageResult) f =>
        { issues := acc.issues ++
            [{ severity := f.severity, message := f.message
               file := fname, line := f.line, rule := f.rule }]
          score_deduction := acc.score_deduction + securityLintDeduction f.severity })
      { issues := [], score_deduction := 0 }
    { issues := folded.issues, score_deduction := min folded.score_deduction 40 }
  | .javascript matchCounts =>
    let folded := (js_security_patterns.zip matchCounts).foldl
      (fun (acc : StageResult) pc =>
        if pc.2 ≠ 0 then
          { issues := acc.issues ++
              [{ severity := pc.1.2
                 message := pc.1.1 ++ " (" ++ toString pc.2 ++ " occurrences)"
                 file := fname, rule := "js_security_pattern" }]
            score_deduction := acc.score_deduction +
              (if pc.1.2 = .error then 15 else if pc.1.2 = .warning then 8 else 0) }
        else acc)
      { issues := [], score_deduction := 0 }
    { issues := folded.issues, score_deduction := min folded.score_deduction 40 }

/-- The content metrics `_analyze_complexity` extracts from the file
(line counts and the regex-counted docstrings/comments). -/
structure ComplexityMetrics where
  line_count : ℕ
  non_empty_lines : ℕ
  docstring_count : ℕ
  comment_count : ℕ
deriving DecidableEq, Repr

/-- `CodeValidator._analyze_complexity`: `info` +3 for files over 500
lines; `info` +2 when a file with more than 20 non-empty lines has a
documentation ratio below 10%; any failure → `info` +0. -/
def analyze_complexity (outcome : StageOutcome ComplexityMetrics)
    (fname : String) : StageResult :=
  match outcome with
  | .failure msg =>
    { issues := [{ severity := .info
                   message := "Complexity analysis failed: " ++ msg
                   file := fname, rule := "complexity_analysis_error" }]
      score_deduction := 0 }
  | .ok m =>
    let r1 : StageResult :=
      if 500 < m.line_count then
        { issues := [{ severity := .info
                       message := "Large file: " ++ toString m.line_count ++
                         " lines (consider splitting)"
                       file := fname, rule := "file_size_complexity" }]
          score_deduction := 3 }
      else { issues := [], score_deduction := 0 }
    if 20 < m.non_empty_lines ∧
        ((m.docstring_count + m.comment_count : ℚ) / (m.non_empty_lines : ℚ) < 1/10) then
      { issues := r1.issues ++
          [{ severity := .info
             message := "Consider adding more comments and documentation"
             file := fname, rule := "documentation_ratio" }]
        score_deduction := r1.score_deduction + 2 }
    else r1

/-- The abstract per-file inputs of `CodeValidator.validate_code_file`. -/
structure CodeInput where
  name : String
  syntaxO : StageOutcome SyntaxResult
  qualityO : QualityOutcome
  securityO : SecurityLintOutcome
  complexityO : StageOutcome ComplexityMetrics
deriving DecidableEq, Repr

/-- A run of `validate_code_file`: either the body completes (`ok`), or an
exception reaches the top-level `except` (`crash`). -/
inductive CodeRun
  | ok (inp : CodeInput)
  | crash (msg : String) (fname : String)
deriving DecidableEq, Repr

/-- Result of `CodeValidator.validate_code_file`. -/
structure ValidationResult where
  score : ℤ
  issues : List Issue
deriving DecidableEq, Repr

/-- `CodeValidator.validate_code_file`. -/
def validate_code_file : CodeRun → ValidationResult
  | .crash msg fname =>
    { score := 0
      issues := [{ severity := .error
                   message := "Code validation failed: " ++ msg
                   file := fname, rule := "validation_error" }] }
  | .ok inp =>
    let file_extension := file_ext inp.name
    match detect_language file_extension with
    | none =>
      { score := 50
        issues := [{ severity := .info
                     message := "Unsupported file type for code validation: " ++
                       file_extension
                     file := inp.name, rule := "language_detection" }] }
    | some _language =>
      let syntax_result := validate_syntax_stage inp.syntaxO inp.name
      let quality_result := analyze_code_quality inp.qualityO inp.name
      let security_result := analyze_code_security inp.securityO inp.name
      let complexity_result := analyze_complexity inp.complexityO inp.name
      { score := max 0 (100 -
          (syntax_result.score_deduction : ℤ) -
          (quality_result.score_deduction : ℤ) -
          (security_result.score_deduction : ℤ) -
          (complexity_result.score_deduction : ℤ))
        issues := syntax_result.issues ++ quality_result.issues ++
          security_result.issues ++ complexity_result.issues }

/-! ## Orchestrator (`main.py`) -/

/-- The per-file scores dict built by `process_single_file` (insertion
order: security, technical_quality, originality, completeness). -/
structure CategoryScores where
  security : ℚ
  technical_quality : ℚ
  originality : ℚ
  completeness : ℚ
deriving DecidableEq, Repr

/-- The scores dict as the association list handed to
`ConfidenceScorer`. -/
def CategoryScores.toScores (c : CategoryScores) : Scores :=
  [("security", c.security), ("technical_quality", c.technical_quality),
   ("originality", c.originality), ("completeness", c.completeness)]

/-- The abstract outcomes one uploaded file exposes to the pipeline. -/
structure FileOutcome where
  scan : ScanRun
  code : CodeRun
deriving DecidableEq, Repr

/-- The dict returned by `process_single_file`. -/
structure FileResult where
  scores : CategoryScores
  issues : List Issue
deriving DecidableEq, Repr

/-- `main.process_single_file`: security scan always; code validation only
for the `coder` researcher type (otherwise the placeholder
`{"score": 0, "issues": []}` stands); originality and completeness are the
fixed placeholders 85 and 80. -/
def process_single_file (researcher_type : String) (fo : FileOutcome) :
    FileResult :=
  let security_result := scan_file fo.scan
  let validation_result :=
    if researcher_type = "coder" then validate_code_file fo.code
    else { score := 0, issues := [] }
  { scores := { security := (security_result.score : ℚ)
                technical_quality := (validation_result.score : ℚ)
                originality := 85
                completeness := 80 }
    issues := security_result.issues ++ validation_result.issues }

/-- The three recommendation values. -/
inductive Recommendation
  | approve
  | human_review
  | reject
deriving DecidableEq, Repr

/-- `main.get_recommendation`. -/
def get_recommendation (confidence : ℤ) (issues : List Issue) :
    Recommendation :=
  let critical_issues := issues.filter (fun i => i.severity == Severity.error)
  if !critical_issues.isEmpty then .reject
  else if 85 ≤ confidence then .approve
  else if 70 ≤ confidence then .human_review
  else .reject

/-- Field-wise accumulation of per-file scores, as the aggregation loop of
`validate_submission` performs it. -/
def sumScores (l : List FileResult) : CategoryScores :=
  l.foldl
    (fun acc r =>
      { security := acc.security + r.scores.security
        technical_quality := acc.technical_quality + r.scores.technical_quality
        originality := acc.originality + r.scores.originality
        completeness := acc.completeness + r.scores.completeness })
    { security := 0, technical_quality := 0, originality := 0, completeness := 0 }

/-- The `ValidationResponse` fields the core computes (transport-only
fields such as `validation_id` and `processing_time_ms` are omitted). -/
structure ValidationResponse where
  overall_confidence : ℤ
  security_passed : Bool
  detailed_scores : CategoryScores
  issues_found : List Issue
  recommendation : Recommendation
  files_processed : ℕ
deriving DecidableEq, Repr

/-- `main.validate_submission` (the `/validate` handler): request
validation, per-file fan-out, per-category averaging (`round(·, 2)`),
confidence scoring and the recommendation decision. -/
def validate_submission (researcher_type : String)
    (files : List FileOutcome) : Except String ValidationResponse :=
  if researcher_type ∉ ["coder", "researcher", "data_scientist"] then
    .error "Invalid researcher type"
  else if files.isEmpty then
    .error "No files provided"
  else
    let processed := files.map (process_single_file researcher_type)
    let all_issues := processed.foldl (fun acc r => acc ++ r.issues) []
    let num_files : ℚ := (processed.length : ℚ)
    let sums := sumScores processed
    let overall_scores : CategoryScores :=
      { security := pyRound2 (sums.security / num_files)
        technical_quality := pyRound2 (sums.technical_quality / num_files)
        originality := pyRound2 (sums.originality / num_files)
        completeness := pyRound2 (sums.completeness / num_files) }
    let overall_confidence := calculate_overall_confidence overall_scores.toScores
    .ok { overall_confidence := overall_confidence
          security_passed := decide (70 ≤ overall_scores.security)
          detailed_scores := overall_scores
          issues_found := all_issues
          recommendation := get_recommendation overall_confidence all_issues
          files_processed := processed.length }

/-- The abstract outcomes of the one file `validate_code_only` writes and
scans. -/
structure CodeOnlyOutcome where
  scan : ScanRun
  code : CodeRun
deriving DecidableEq, Repr

/-- The dict returned by `validate_code_only`. -/
structure CodeOnlyResponse where
  confidence : ℤ
  scores : CategoryScores
  issues : List Issue
  recommendation : Recommendation
deriving DecidableEq, Repr

/-- `main.validate_code_only` (the `/validate/code` handler). -/
def validate_code_only (language : String) (o : CodeOnlyOutcome) :
    Except String CodeOnlyResponse :=
  if language ∉ ["python", "javascript"] then
    .error "Unsupported language"
  else
    let security_result := scan_file o.scan
    let validation_result := validate_code_file o.code
    let scores : CategoryScores :=
      { security := (security_result.score : ℚ)
        technical_quality := (validation_result.score : ℚ)
        originality := 85
        completeness := 80 }
    let overall_confidence := calculate_overall_confidence scores.toScores
    let issues := security_result.issues ++ validation_result.issues
    .ok { confidence := overall_confidence
          scores := scores
          issues := issues
          recommendation := get_recommendation overall_confidence issues }

/-! ## Helper lemmas -/

/-- A successful association-list lookup exhibits a member of the list. -/
theorem lookup_mem {l : List (String × ℚ)} {k : String} {v : ℚ}
    (h : l.lookup k = some v) : (k, v) ∈ l := by
  induction l with
  | nil => simp [List.lookup] at h
  | cons p t ih =>
    rw [List.lookup] at h
    split at h
    · next heq =>
      cases h
      have hk : k = p.1 := eq_of_beq heq
      cases p
      simp_all
    · next => exact List.mem_cons_of_mem _ (ih h)

/-- The aggregation fold of `validate_submission` leaves the
technical-quality accumulator unchanged when every per-file
technical-quality score is zero. -/
theorem foldl_tq (l : List FileResult) (init : CategoryScores)
    (h : ∀ r ∈ l, r.scores.technical_quality = 0) :
    (l.foldl
      (fun acc r =>
        { security := acc.security + r.scores.security
          technical_quality := acc.technical_quality + r.scores.technical_quality
          originality := acc.originality + r.scores.originality
          completeness := acc.completeness + r.scores.completeness })
      init).technical_quality = init.technical_quality := by
  induction l generalizing init with
  | nil => rfl
  | cons r t ih =>
    simp only [List.foldl_cons]
    rw [ih]
    · dsimp only
      rw [h r (List.mem_cons_self r t), add_zero]
    · intro x hx
      exact h x (List.mem_cons_of_mem _ hx)

/-- `pyRound2` fixes zero. -/
theorem pyRound2_zero : pyRound2 0 = 0 := by
  norm_num [pyRound2, pyRound]

/-- Summing per-file scores that are all zero in the technical-quality
category yields a zero technical-quality total. -/
theorem sumScores_tq_zero (l : List FileResult)
    (h : ∀ r ∈ l, r.scores.technical_quality = 0) :
    (sumScores l).technical_quality = 0 := by
  rw [sumScores, foldl_tq l _ h]

/-! ## Claim theorems -/

/-- C1: if the malware stage reports the file infected, `scan_file`
returns a security score of exactly 0, whatever the file-type,
content-pattern and structure stages report — their deductions cannot
raise the score above 0. -/
theorem malware_forces_zero_score (inp : SecurityInput)
    (h : inp.clam.infected = true) :
    (scan_file (ScanRun.ok inp)).score = 0 := by
  simp only [scan_file, h, if_true]
  split <;> omega

/-- Witness for C1: a concrete infected python file scores 0. -/
def sampleInfected : SecurityInput :=
  { name := "a.py", clam := { infected := true, virus := "Eicar-Test" },
    sig := .ok [35, 33], contentMatches := .ok [0, 0, 0, 0, 0, 0, 0], fsize := .ok 100 }

/-- C1 witness: the malware override evaluated on a concrete file. -/
theorem malware_witness :
    sampleInfected.clam.infected = true ∧
    (scan_file (.ok sampleInfected)).score = 0 :=
  ⟨rfl, malware_forces_zero_score sampleInfected rfl⟩

/-- C2: the recommendation is a pure function of confidence and issues —
`reject` whenever some issue has severity `error` (even at confidence
100), otherwise `approve` at confidence ≥ 85, otherwise `human_review`
at confidence ≥ 70, otherwise `reject`. -/
theorem recommendation_cases (confidence : ℤ) (issues : List Issue) :
    get_recommendation confidence issues =
      if ∃ i ∈ issues, i.severity = Severity.error then .reject
      else if 85 ≤ confidence then .approve
      else if 70 ≤ confidence then .human_review
      else .reject := by
  by_cases h : ∃ i ∈ issues, i.severity = Severity.error
  · simp [get_recommendation, List.isEmpty_iff, List.filter_eq_nil_iff, h]
  · simp [get_recommendation, List.isEmpty_iff, List.filter_eq_nil_iff, h]

/-- C3 (counterexample): with the score map `{security: 90}` the
confidence scorer returns 94, not 90 — after weight renormalization
yields 90, the all-categories-at-least-85 bonus applies to the lone
present category, giving `90 × 1.05 = 94.5`, which rounds half-to-even
to 94. -/
theorem singleton_security_not_ninety :
    calculate_overall_confidence [("security", 90)] = 94 ∧
    calculate_overall_confidence [("security", 90)] ≠ 90 := by
  have h : calculate_overall_confidence [("security", 90)] = 94 := by
    norm_num [calculate_overall_confidence, weightedTotals, apply_confidence_adjustments,
      pyRound, List.lookup, weights, min_def,
      show (("technical_quality" == "security") : Bool) = false from rfl]
  exact ⟨h, by rw [h]; decide⟩

/-- C3 (amended): missing categories are renormalized — for a score map
holding only `security = s` the weighted mean is exactly `s` — but for
`{security: 90}` the subsequent all-categories bonus multiplies the 90
by 1.05 and the rounded result is 94, not 90. -/
theorem singleton_security_renormalizes_but_bonus :
    (∀ s : ℚ,
      (weightedTotals [("security", s)]).1 / (weightedTotals [("security", s)]).2 = s) ∧
    calculate_overall_confidence [("security", 90)] = 94 := by
  constructor
  · intro s
    simp only [weightedTotals, weights, List.foldl, List.lookup]
    norm_num
  · norm_num [calculate_overall_confidence, weightedTotals, apply_confidence_adjustments,
      pyRound, List.lookup, weights, min_def,
      show (("technical_quality" == "security") : Bool) = false from rfl]

/-- C4: when security < 50 and technical_quality < 30 are both present,
the confidence adjustments multiply the base by 0.3 and then by 0.5 —
the penalties compound to the factor 0.15 rather than only the larger
one applying. -/
theorem low_security_and_quality_compound (scores : Scores) (base_score s t : ℚ)
    (hs : scores.lookup "security" = some s) (hs50 : s < 50)
    (ht : scores.lookup "technical_quality" = some t) (ht30 : t < 30) :
    apply_confidence_adjustments scores base_score = base_score * (3/10) * (1/2) := by
  have hmem : ("security", s) ∈ scores := lookup_mem hs
  simp only [apply_confidence_adjustments, hs, ht, Option.getD_some]
  rw [if_pos hs50, if_pos ht30, if_neg]
  intro hall
  have h85 := hall _ hmem
  simp only at h85
  linarith

/-- C4 witness: the compounded factor evaluated on a concrete score map. -/
theorem compound_witness :
    (([("security", (40:ℚ)), ("technical_quality", 20)] : Scores).lookup "security"
        = some 40 ∧ (40:ℚ) < 50 ∧
      ([("security", (40:ℚ)), ("technical_quality", 20)] : Scores).lookup "technical_quality"
        = some 20 ∧ (20:ℚ) < 30) ∧
    apply_confidence_adjustments [("security", 40), ("technical_quality", 20)] 100 =
      100 * (3/10) * (1/2) :=
  ⟨⟨rfl, by decide, rfl, by decide⟩,
    low_security_and_quality_compound _ 100 40 20 rfl (by decide) rfl (by decide)⟩

/-- C5: every security score, technical-quality score and confidence
value lies in [0, 100], on success paths and on every fallback or error
path. -/
theorem scores_in_range :
    (∀ r : ScanRun, 0 ≤ (scan_file r).score ∧ (scan_file r).score ≤ 100) ∧
    (∀ c : CodeRun, 0 ≤ (validate_code_file c).score ∧ (validate_code_file c).score ≤ 100) ∧
    (∀ s : Scores, 0 ≤ calculate_overall_confidence s ∧ calculate_overall_confidence s ≤ 100) := by
  refine ⟨?_, ?_, ?_⟩
  · intro r
    cases r with
    | crash a m f => simp [scan_file]
    | ok inp =>
      simp only [scan_file]
      split <;> split <;> omega
  · intro c
    cases c with
    | crash m f => simp [validate_code_file]
    | ok inp =>
      simp only [validate_code_file]
      split <;> dsimp only <;> omega
  · intro s
    simp only [calculate_overall_confidence]
    omega

/-- C6 (counterexample): an unexpected failure in the syntax-validation
stage is converted into a 10-point deduction with a single
`warning`-severity issue — not a zero-contribution result with an
`error`-severity issue as claimed. -/
theorem stage_failure_not_uniform :
    (validate_syntax_stage (.failure "boom") "f.py").score_deduction = 10 ∧
    (validate_syntax_stage (.failure "boom") "f.py").issues =
      [{ severity := .warning, message := "Syntax validation failed: boom",
         file := "f.py", rule := "syntax_validation_error" }] := ⟨rfl, rfl⟩

/-- C6 (amended): every unexpected stage failure is caught at the stage
boundary, but the converted result is stage-specific: syntax validation
yields one `warning` issue and a flat 10-point deduction, quality
analysis yields one `info` issue and zero deduction, and the security
scanner's top-level handler yields one `error` issue with the score
forced to 0 and the scan marked incomplete. -/
theorem stage_failure_fallbacks (msg fname : String) (accumulated : List Issue) :
    validate_syntax_stage (.failure msg) fname =
      { issues := [{ severity := .warning, message := "Syntax validation failed: " ++ msg,
                     file := fname, rule := "syntax_validation_error" }]
        score_deduction := 10 } ∧
    analyze_code_quality (.failure msg) fname =
      { issues := [{ severity := .info, message := "Code quality analysis failed: " ++ msg,
                     file := fname, rule := "quality_analysis_error" }]
        score_deduction := 0 } ∧
    scan_file (.crash accumulated msg fname) =
      { score := 0
        issues := accumulated ++
          [{ severity := .error, message := "Security scan failed: " ++ msg,
             file := fname, rule := "scan_error" }]
        scan_completed := false } :=
  ⟨rfl, rfl, rfl⟩

/-- C7: a file whose extension is not in the language table short-circuits
to the neutral score 50 with exactly one `info` issue, and the result does
not depend on any of the four stage outcomes. -/
theorem unsupported_extension_neutral (inp : CodeInput)
    (h : detect_language (file_ext inp.name) = none) :
    validate_code_file (.ok inp) =
      { score := 50
        issues := [{ severity := .info
                     message := "Unsupported file type for code validation: " ++ file_ext inp.name
                     file := inp.name, rule := "language_detection" }] } ∧
    ∀ inp' : CodeInput, inp'.name = inp.name →
      validate_code_file (.ok inp') = validate_code_file (.ok inp) := by
  constructor
  · simp only [validate_code_file, h]
  · intro inp' hn
    simp only [validate_code_file, hn, h]

/-- A concrete `.java` submission used to witness the
unsupported-extension short-circuit. -/
def sampleJava : CodeInput :=
  { name := "Main.java", syntaxO := .ok { valid := true, error := "" },
    qualityO := .ok [], securityO := .python [],
    complexityO := .ok { line_count := 1, non_empty_lines := 1,
                         docstring_count := 0, comment_count := 0 } }

/-- C7 witness: the neutral result evaluated on a concrete java file. -/
theorem unsupported_witness :
    detect_language (file_ext sampleJava.name) = none ∧
    validate_code_file (.ok sampleJava) =
      { score := 50
        issues := [{ severity := .info
                     message := "Unsupported file type for code validation: " ++
                       file_ext sampleJava.name
                     file := sampleJava.name, rule := "language_detection" }] } :=
  ⟨rfl, (unsupported_extension_neutral sampleJava rfl).1⟩

/-- C8: when both the denylisted-extension condition and the executable
signature trigger, the file-type stage reports both `error` issues but
marks the file suspicious once, and the scan deducts a flat 20 points for
this stage — not 40. -/
theorem file_type_deduction_once (fname : String) (bytes : List ℕ)
    (hd : file_ext fname ∈ dangerous_extensions)
    (hl : 2 ≤ bytes.length) (hm : bytes.take 2 = [77, 90]) :
    (validate_file_type fname (.ok bytes)).suspicious = true ∧
    (validate_file_type fname (.ok bytes)).issues.length = 2 ∧
    (∀ i ∈ (validate_file_type fname (.ok bytes)).issues, i.severity = Severity.error) ∧
    ∀ (virus : String) (content : StageOutcome (List ℕ)) (fsize : StageOutcome ℕ),
      (scan_file (.ok { name := fname, clam := { infected := false, virus := virus },
                        sig := .ok bytes, contentMatches := content, fsize := fsize })).score =
        max 0 (100 - 20 - ((scan_file_content fname content).score_deduction : ℤ)
                 - ((validate_file_structure fname fsize).score_deduction : ℤ)) := by
  have hft : validate_file_type fname (.ok bytes) =
      { suspicious := true
        issues := [{ severity := .error
                     message := "Dangerous file type not allowed: " ++ file_ext fname
                     file := fname, rule := "file_type_validation" },
                   { severity := .error
                     message := "Executable file detected by signature"
                     file := fname, rule := "file_signature_check" }] } := by
    simp only [validate_file_type]
    rw [if_pos hd, if_pos ⟨hl, hm⟩]
    simp [hd]
  refine ⟨by rw [hft], by rw [hft]; rfl, ?_, ?_⟩
  · rw [hft]
    intro i hi
    simp only [List.mem_cons, List.not_mem_nil, or_false] at hi
    rcases hi with rfl | rfl <;> rfl
  · intro virus content fsize
    simp only [scan_file, hft]
    dsimp only
    simp only [Bool.false_eq_true, if_false, if_true]

/-- C8 witness: the single 20-point deduction evaluated on a concrete
`.exe` file bearing the `MZ` signature. -/
theorem deduction_once_witness :
    (file_ext "malware.exe" ∈ dangerous_extensions ∧
      2 ≤ ([77, 90, 0] : List ℕ).length ∧ ([77, 90, 0] : List ℕ).take 2 = [77, 90]) ∧
    (validate_file_type "malware.exe" (.ok [77, 90, 0])).suspicious = true ∧
    (validate_file_type "malware.exe" (.ok [77, 90, 0])).issues.length = 2 ∧
    (scan_file (.ok { name := "malware.exe", clam := { infected := false, virus := "" },
                      sig := .ok [77, 90, 0], contentMatches := .ok [],
                      fsize := .ok (100 : ℕ) })).score =
      max 0 (100 - 20 -
        ((scan_file_content "malware.exe" (.ok [])).score_deduction : ℤ) -
        ((validate_file_structure "malware.exe" (.ok (100 : ℕ))).score_deduction : ℤ)) :=
  ⟨⟨by decide, by decide, rfl⟩,
    (file_type_deduction_once "malware.exe" [77, 90, 0] (by decide) (by decide) rfl).1,
    (file_type_deduction_once "malware.exe" [77, 90, 0] (by decide) (by decide) rfl).2.1,
    (file_type_deduction_once "malware.exe" [77, 90, 0] (by decide) (by decide)
      rfl).2.2.2 "" (.ok []) (.ok 100)⟩

/-- C9: for the non-coder researcher types the code validator is never
consulted — each file's technical-quality score is 0 with no quality
issues, the aggregated technical quality is 0, and with technical
quality 0 in the score map the 0.5 technical-quality penalty multiplier
always applies (and the bonus never does). -/
theorem noncoder_zero_technical_quality (researcher_type : String)
    (hrt : researcher_type = "researcher" ∨ researcher_type = "data_scientist") :
    (∀ fo : FileOutcome,
      (process_single_file researcher_type fo).scores.technical_quality = 0 ∧
      (process_single_file researcher_type fo).issues = (scan_file fo.scan).issues) ∧
    (∀ files : List FileOutcome, files ≠ [] →
      (validate_submission researcher_type files).toOption.map
        (fun r => r.detailed_scores.technical_quality) = some 0) ∧
    (∀ (scores : Scores) (base_score : ℚ),
      scores.lookup "technical_quality" = some 0 →
      apply_confidence_adjustments scores base_score =
        (if (scores.lookup "security").getD 100 < 50 then base_score * (3/10)
         else if (scores.lookup "security").getD 100 < 70 then base_score * (7/10)
         else base_score) * (1/2)) := by
  have hne : researcher_type ≠ "coder" := by
    rcases hrt with rfl | rfl <;> decide
  have part1 : ∀ fo : FileOutcome,
      (process_single_file researcher_type fo).scores.technical_quality = 0 ∧
      (process_single_file researcher_type fo).issues = (scan_file fo.scan).issues := by
    intro fo
    simp only [process_single_file, if_neg hne]
    exact ⟨by norm_num, by simp⟩
  refine ⟨part1, ?_, ?_⟩
  · intro files hfiles
    have hmem : researcher_type ∈ ["coder", "researcher", "data_scientist"] := by
      rcases hrt with rfl | rfl <;> decide
    have hemp : files.isEmpty = false := by
      simp [List.isEmpty_iff, hfiles]
    simp only [validate_submission, if_neg (not_not_intro hmem), hemp,
      Bool.false_eq_true, if_false, Except.toOption, Option.map_some', Option.some.injEq]
    rw [sumScores_tq_zero]
    · norm_num [pyRound2_zero]
    · intro r hr
      rcases List.mem_map.1 hr with ⟨fo, _, rfl⟩
      exact (part1 fo).1
  · intro scores base_score h0
    have hmem0 : ("technical_quality", (0:ℚ)) ∈ scores := lookup_mem h0
    have hbonus : ¬ ∀ p ∈ scores, (85:ℚ) ≤ p.2 := by
      intro hall
      have h85 := hall _ hmem0
      simp only at h85
      linarith
    simp only [apply_confidence_adjustments, h0, Option.getD_some]
    rw [if_neg hbonus, if_pos (show (0:ℚ) < 30 by norm_num)]

/-- A concrete file outcome used to witness the non-coder pipeline. -/
def sampleOutcome : FileOutcome :=
  { scan := .crash [] "io error" "f.txt", code := .crash "io error" "f.txt" }

/-- C9 witness: the non-coder behaviour evaluated on a concrete
researcher submission. -/
theorem noncoder_witness :
    (("researcher" = "researcher" ∨ "researcher" = "data_scientist") ∧
      ([sampleOutcome] : List FileOutcome) ≠ [] ∧
      ([("technical_quality", (0:ℚ))] : Scores).lookup "technical_quality" = some 0) ∧
    (process_single_file "researcher" sampleOutcome).scores.technical_quality = 0 ∧
    (validate_submission "researcher" [sampleOutcome]).toOption.map
      (fun r => r.detailed_scores.technical_quality) = some 0 :=
  ⟨⟨Or.inl rfl, by simp, rfl⟩,
    ((noncoder_zero_technical_quality "researcher" (Or.inl rfl)).1 sampleOutcome).1,
    (noncoder_zero_technical_quality "researcher" (Or.inl rfl)).2.1 [sampleOutcome]
      (by simp)⟩

/-- C10: in both the full-submission and the direct-code paths the
per-file issue list is the security-scan issues followed by the
code-quality issues, each sublist in emission order. -/
theorem issues_security_then_quality :
    (∀ (researcher_type : String) (fo : FileOutcome),
      (process_single_file researcher_type fo).issues =
        (scan_file fo.scan).issues ++
        (if researcher_type = "coder" then validate_code_file fo.code
         else { score := 0, issues := [] } : ValidationResult).issues) ∧
    (∀ (language : String) (o : CodeOnlyOutcome),
      language ∈ ["python", "javascript"] →
      (validate_code_only language o).toOption.map CodeOnlyResponse.issues =
        some ((scan_file o.scan).issues ++ (validate_code_file o.code).issues)) := by
  constructor
  · intro researcher_type fo
    rfl
  · intro language o hl
    simp only [validate_code_only, if_neg (not_not_intro hl), Except.toOption,
      Option.map_some']

/-- A concrete direct-code request used to witness issue concatenation. -/
def sampleCodeOnly : CodeOnlyOutcome :=
  { scan := .crash [] "io error" "snippet.py", code := .crash "io error" "snippet.py" }

/-- C10 witness: issue concatenation evaluated on a concrete python
request. -/
theorem issues_order_witness :
    (("python" : String) ∈ ["python", "javascript"]) ∧
    (validate_code_only "python" sampleCodeOnly).toOption.map CodeOnlyResponse.issues =
      some ((scan_file sampleCodeOnly.scan).issues ++
        (validate_code_file sampleCodeOnly.code).issues) :=
  ⟨by decide, issues_security_then_quality.2 "python" sampleCodeOnly (by decide)⟩

end Viera
